import Mathlib

/-!
# The form submission handler of `api/static/script.js`

The script registers one asynchronous listener for the `submit` event of the
form `cgolForm`.  This file embeds that listener as a small machine whose
program counter ranges over the statements of the listener (named after their
source lines) and over its two suspension points, and proves what the listener
does to the page.

What is taken from the platform rather than from the script:

* the three elements the script looks up by identifier exist (the DOM contract
  of the page), so `getElementById` never yields `null`;
* a value produced by JSON parsing is `null`, a boolean, a number, a string, an
  array or an object; a number is kept only through the two observations the
  listener can make of it;
* strings are Lean strings.
-/

namespace CgolForm

/-! ## Values -/

/-- A JavaScript exception or promise rejection reason, identified by its name. -/
structure JsError where
  name : String
deriving DecidableEq, Repr

/-- A number as the listener can observe it: its truthiness (`false` exactly
for `0` and `-0`; parsing JSON never yields `NaN`) and its rendering under
`ToString`. -/
structure JsNumber where
  nonZero : Bool
  text : String
deriving DecidableEq, Repr

mutual
/-- A value obtained by parsing JSON. -/
inductive Json where
  | null
  | bool (b : Bool)
  | num (n : JsNumber)
  | str (s : String)
  | arr (elems : JsonElems)
  | obj (members : JsonMembers)
/-- The elements of a parsed array, in order. -/
inductive JsonElems where
  | nil
  | cons (head : Json) (tail : JsonElems)
/-- The members of a parsed object, in the order they were written. -/
inductive JsonMembers where
  | nil
  | cons (key : String) (value : Json) (tail : JsonMembers)
end

/-- Own property lookup on a parsed object: when a name is written more than
once, the last occurrence is the one the parser keeps. -/
def JsonMembers.get? (name : String) : JsonMembers → Option Json
  | .nil => none
  | .cons key value tail =>
    match tail.get? name with
    | some later => some later
    | none => if key = name then some value else none

/-- Whether the object has an own property of that name. -/
def JsonMembers.hasOwn (name : String) (members : JsonMembers) : Bool :=
  (members.get? name).isSome

/-- Whether the value is `null`. -/
def Json.isNull : Json → Bool
  | .null => true
  | _ => false

/-- The `ToBoolean` conversion, as applied by the `||` operator. -/
def Json.truthy : Json → Bool
  | .null => false
  | .bool b => b
  | .num n => n.nonZero
  | .str s => decide (s ≠ "")
  | .arr _ => true
  | .obj _ => true

mutual
/-- The `ToString` conversion.  An array is joined with commas, `null`
elements rendering as nothing.  A parsed object renders as `[object Object]`
through the inherited `toString`, unless an own member named `toString`
shadows it: such a member is never callable, and neither it nor `valueOf`
then produces a primitive, which is a `TypeError`. -/
def Json.toStringJs : Json → Except JsError String
  | .null => .ok "null"
  | .bool b => .ok (if b then "true" else "false")
  | .num n => .ok n.text
  | .str s => .ok s
  | .arr elems => elems.joinJs
  | .obj members =>
    if members.hasOwn "toString" then .error ⟨"TypeError"⟩ else .ok "[object Object]"
/-- The comma-separated rendering of array elements (`Array.prototype.join`). -/
def JsonElems.joinJs : JsonElems → Except JsError String
  | .nil => .ok ""
  | .cons x .nil => if x.isNull then .ok "" else x.toStringJs
  | .cons x (.cons y rest) =>
    match (if x.isNull then .ok "" else x.toStringJs) with
    | .error e => .error e
    | .ok first =>
      match (JsonElems.cons y rest).joinJs with
      | .error e => .error e
      | .ok others => .ok (first ++ "," ++ others)
end

/-- The member access `data.server_response`.  On `null` it throws a
`TypeError`; on an object it is the own property of that name, `undefined`
(here `none`) when there is none; every other parsed value has no property of
that name, on itself or on its prototype. -/
def Json.serverResponse : Json → Except JsError (Option Json)
  | .null => .error ⟨"TypeError"⟩
  | .obj members => .ok (members.get? "server_response")
  | _ => .ok none

/-- The fixed message shown when the answer carries no usable text. -/
def fallbackMessage : String := "Please enter a valid prompt"

/-- The expression `v || fallback` for `v` either `undefined` (`none`) or a
parsed value, and `fallback` a string. -/
def orFallback (v : Option Json) (fallback : String) : Json :=
  match v with
  | none => .str fallback
  | some j => if j.truthy then j else .str fallback

/-- The conversion applied by the `textContent` setter to the assigned value:
`null` stands for the empty string, anything else goes through `ToString`. -/
def domString (v : Json) : Except JsError String :=
  if v.isNull then .ok "" else v.toStringJs

/-! ## Form data, requests and responses -/

/-- The value of one form entry: text, or a file given by its name. -/
inductive EntryValue where
  | text (value : String)
  | file (name : String)
deriving DecidableEq, Repr

/-- An entry list, as collected from a form by `new FormData(form)`. -/
abbrev FormData := List (String × EntryValue)

/-- The method `FormData.get`: the first value under that name, or `null`. -/
def FormData.get (fd : FormData) (name : String) : Option EntryValue :=
  match fd with
  | [] => none
  | (key, value) :: rest => if key = name then some value else FormData.get rest name

/-- An outbound request as described by the arguments of `fetch`; `headers`
are those given in the call. -/
structure Request where
  url : String
  method : String
  headers : List (String × String)
  body : FormData
deriving DecidableEq, Repr

/-- A response as the listener can observe it: status code, reason phrase, and
the outcome of reading its body through `response.json()`, which rejects when
the body is not valid JSON. -/
structure Response where
  status : Nat
  statusText : String
  json : Except JsError Json

/-- The getter `response.ok`: the status is in the range 200 to 299. -/
def Response.ok (r : Response) : Bool :=
  decide (200 ≤ r.status) && decide (r.status ≤ 299)

/-- How the promise returned by `fetch` settles: rejected at the transport
level, or resolved with a response whatever its status. -/
abbrev FetchOutcome := Except JsError Response

/-! ## The page -/

/-- The part of the document the listener reads and writes: the entry list of
the form `cgolForm`, the class list of `submit_button`, and the text content of
`responseRenderArea`. -/
structure Page where
  formEntries : FormData
  submitClasses : List String
  textContent : String
deriving DecidableEq, Repr

/-- The method `classList.add`: the token is appended unless present. -/
def classListAdd (token : String) (classes : List String) : List String :=
  if token ∈ classes then classes else classes ++ [token]

/-- The method `classList.remove`: the token is taken out. -/
def classListRemove (token : String) (classes : List String) : List String :=
  classes.filter (fun c => decide (c ≠ token))

/-- Whether the submit control carries the `loading` marker. -/
def Page.loading (p : Page) : Bool :=
  decide ("loading" ∈ p.submitClasses)

/-! ## The listener as a machine -/

/-- What the listener does to the outside, in the order it does it. -/
inductive Effect where
  | preventDefault
  | classListAdd (token : String)
  | classListRemove (token : String)
  | newFormData
  | formDataGet (name : String)
  | fetch (req : Request)
  | responseJson
  | setTextContent (text : String)
deriving DecidableEq, Repr

/-- Where the listener stands: before the statement of a source line, suspended
at one of the two `await`s, or finished, normally or by an exception that
nothing catches (the promise of the listener rejects). -/
inductive Pc where
  | line5
  | line6
  | line7
  | line8
  | line10
  | await10
  | line14
  | line16
  | line17
  | await17
  | line18
  | line20
  | returned
  | threw (e : JsError)
deriving DecidableEq, Repr

/-- The four constants of the listener, `none` until initialised. -/
structure Locals where
  formData : Option FormData
  userInput : Option (Option EntryValue)
  response : Option Response
  data : Option Json

/-- One activation of the listener: its position, its constants, and the
canceled flag of the submit event it was called with. -/
structure Frame where
  pc : Pc
  locals : Locals
  defaultPrevented : Bool

/-- An activation together with what it shares with the rest of the page: the
document, the record of effects, and whether the browser has navigated away. -/
structure Config extends Frame where
  page : Page
  log : List Effect
  navigated : Bool

/-- The listener has been called and has run no statement yet. -/
def Frame.fresh : Frame :=
  { pc := .line5, locals := ⟨none, none, none, none⟩, defaultPrevented := false }

/-- The listener called on a page, nothing done yet. -/
def initial (page : Page) : Config :=
  { toFrame := Frame.fresh, page := page, log := [], navigated := false }

/-- The listener has finished. -/
def Pc.finished : Pc → Bool
  | .returned => true
  | .threw _ => true
  | _ => false

/-- Reading a constant before its initialisation. -/
def referenceError : JsError := ⟨"ReferenceError"⟩

/-- The request built by the call of `fetch` on line 10. -/
def resultsRequest (formData : FormData) : Request :=
  { url := "/results", method := "POST", headers := [], body := formData }

/-- Run the statement the listener stands before.  Nothing happens while it is
suspended or once it has finished. -/
def exec (c : Config) : Config :=
  match c.pc with
  | .line5 =>
    { c with pc := .line6, defaultPrevented := true, log := c.log ++ [.preventDefault] }
  | .line6 =>
    { c with
      pc := .line7
      page := { c.page with submitClasses := classListAdd "loading" c.page.submitClasses }
      log := c.log ++ [.classListAdd "loading"] }
  | .line7 =>
    { c with
      pc := .line8
      locals := { c.locals with formData := some c.page.formEntries }
      log := c.log ++ [.newFormData] }
  | .line8 =>
    match c.locals.formData with
    | none => { c with pc := .threw referenceError }
    | some fd =>
      { c with
        pc := .line10
        locals := { c.locals with userInput := some (fd.get "user_input") }
        log := c.log ++ [.formDataGet "user_input"] }
  | .line10 =>
    match c.locals.formData with
    | none => { c with pc := .threw referenceError }
    | some fd => { c with pc := .await10, log := c.log ++ [.fetch (resultsRequest fd)] }
  | .line14 =>
    { c with
      pc := .line16
      page := { c.page with submitClasses := classListRemove "loading" c.page.submitClasses }
      log := c.log ++ [.classListRemove "loading"] }
  | .line16 =>
    match c.locals.response with
    | none => { c with pc := .threw referenceError }
    | some r => if r.ok then { c with pc := .line17 } else { c with pc := .line20 }
  | .line17 =>
    match c.locals.response with
    | none => { c with pc := .threw referenceError }
    | some _ => { c with pc := .await17, log := c.log ++ [.responseJson] }
  | .line18 =>
    match c.locals.data with
    | none => { c with pc := .threw referenceError }
    | some data =>
      match data.serverResponse with
      | .error e => { c with pc := .threw e }
      | .ok v =>
        match domString (orFallback v fallbackMessage) with
        | .error e => { c with pc := .threw e }
        | .ok text =>
          { c with
            pc := .returned
            page := { c.page with textContent := text }
            log := c.log ++ [.setTextContent text] }
  | .line20 =>
    match c.locals.response with
    | none => { c with pc := .threw referenceError }
    | some r =>
      { c with
        pc := .returned
        page := { c.page with textContent := r.statusText }
        log := c.log ++ [.setTextContent r.statusText] }
  | .await10 => c
  | .await17 => c
  | .returned => c
  | .threw _ => c

/-- The promise of `fetch` settles while the listener waits on line 10: a
rejection is thrown out of the listener, a response is bound to `response`. -/
def resumeFetch (net : FetchOutcome) (c : Config) : Config :=
  match c.pc with
  | .await10 =>
    match net with
    | .error e => { c with pc := .threw e }
    | .ok r => { c with pc := .line14, locals := { c.locals with response := some r } }
  | _ => c

/-- The promise of `response.json()` settles while the listener waits on line
17: a rejection is thrown out of the listener, a value is bound to `data`. -/
def resumeJson (c : Config) : Config :=
  match c.pc with
  | .await17 =>
    match c.locals.response with
    | none => { c with pc := .threw referenceError }
    | some r =>
      match r.json with
      | .error e => { c with pc := .threw e }
      | .ok data => { c with pc := .line18, locals := { c.locals with data := some data } }
  | _ => c

/-- One move of the listener, the network answering with `net`: a statement, or
the resumption from an `await`. -/
def step (net : FetchOutcome) (c : Config) : Config :=
  match c.pc with
  | .await10 => resumeFetch net c
  | .await17 => resumeJson c
  | _ => exec c

/-- The configurations passed through in `n` moves, the first one included. -/
def traceFrom (net : FetchOutcome) : Nat → Config → List Config
  | 0, c => [c]
  | n + 1, c => c :: traceFrom net n (step net c)

/-- Every configuration of one submission, from the call of the listener to its
end: the longest path runs eleven moves. -/
def trace (net : FetchOutcome) (page : Page) : List Config :=
  traceFrom net 11 (initial page)

/-- Run statements up to the next suspension or the end; no stretch of the
listener between two suspensions is longer than five statements. -/
def runSync (c : Config) : Config :=
  exec (exec (exec (exec (exec c))))

/-- The default action of the browser for a submit event, taken when the
dispatch of the event comes back from the listeners: it navigates to the
target of the form unless the event has been canceled. -/
def defaultAction (c : Config) : Config :=
  if c.defaultPrevented then c else { c with navigated := true }

/-- A submit event is dispatched: the listener runs up to its first suspension,
then the browser takes the default action. -/
def submit (c : Config) : Config :=
  defaultAction (runSync c)

/-- The request settles: a listener waiting on it goes on to its next
suspension or to its end. -/
def onFetchSettled (net : FetchOutcome) (c : Config) : Config :=
  runSync (resumeFetch net c)

/-- The body has been read: a listener waiting on it goes on to its end. -/
def onBodyRead (c : Config) : Config :=
  runSync (resumeJson c)

/-- One whole submission on a page, the network answering with `net`. -/
def run (net : FetchOutcome) (page : Page) : Config :=
  onBodyRead (onFetchSettled net (submit (initial page)))

/-! ## Summaries used in the statements -/

/-- What the listener makes of a response, as a function of the response
alone (lines 16 to 21): the text it writes to the render area, or the
exception it ends with. -/
def Response.rendering (r : Response) : Except JsError String :=
  if r.ok then
    match r.json with
    | .error e => .error e
    | .ok data =>
      match data.serverResponse with
      | .error e => .error e
      | .ok v => domString (orFallback v fallbackMessage)
  else .ok r.statusText

/-- The effects of the listener up to and including the call of `fetch`. -/
def submitEffects (page : Page) : List Effect :=
  [.preventDefault, .classListAdd "loading", .newFormData, .formDataGet "user_input",
    .fetch (resultsRequest page.formEntries)]

/-- The page while the request is under way: the marker has been added. -/
def waitingPage (page : Page) : Page :=
  { page with submitClasses := classListAdd "loading" page.submitClasses }

/-- The page once a response has arrived: the marker has been removed again. -/
def settledPage (page : Page) : Page :=
  { page with
    submitClasses := classListRemove "loading" (classListAdd "loading" page.submitClasses) }

/-- The requests issued according to a record of effects, in order. -/
def requests : List Effect → List Request
  | [] => []
  | .fetch req :: rest => req :: requests rest
  | _ :: rest => requests rest

/-- Whether an effect writes the render area. -/
def Effect.writesText : Effect → Bool
  | .setTextContent _ => true
  | _ => false

/-! ## Two submissions on one page -/

/-- The two activations of the listener that may be under way at once. -/
inductive FlowId where
  | first
  | second
deriving DecidableEq, Repr

/-- One page with two activations of the listener.  The document and the
record of effects are shared; `ended` lists the activations that have
finished, in the order they did. -/
structure System where
  page : Page
  log : List Effect
  navigated : Bool
  first : Frame
  second : Frame
  ended : List FlowId

/-- The activation of that name. -/
def System.frame (s : System) : FlowId → Frame
  | .first => s.first
  | .second => s.second

/-- The configuration one activation runs in. -/
def System.view (s : System) (i : FlowId) : Config :=
  { toFrame := s.frame i, page := s.page, log := s.log, navigated := s.navigated }

/-- Put back what a stretch of one activation has made of its configuration. -/
def System.commit (s : System) (i : FlowId) (c : Config) : System :=
  let ended := if c.pc.finished then s.ended ++ [i] else s.ended
  match i with
  | .first =>
    { s with page := c.page, log := c.log, navigated := c.navigated, first := c.toFrame,
             ended := ended }
  | .second =>
    { s with page := c.page, log := c.log, navigated := c.navigated, second := c.toFrame,
             ended := ended }

/-- What can happen to a page with two activations.  Each occurrence runs one
activation from where it stands to its next suspension or its end, without
interruption, as the event loop does. -/
inductive Tick where
  | submitted (i : FlowId)
  | fetchSettled (i : FlowId)
  | bodyRead (i : FlowId)
deriving DecidableEq, Repr

/-- One occurrence, `net i` being how the request of activation `i` settles.
An occurrence that does not match where the activation stands changes
nothing. -/
def tick (net : FlowId → FetchOutcome) (s : System) : Tick → System
  | .submitted i =>
    if (s.frame i).pc = .line5 then s.commit i (submit (s.view i)) else s
  | .fetchSettled i =>
    if (s.frame i).pc = .await10 then s.commit i (onFetchSettled (net i) (s.view i)) else s
  | .bodyRead i =>
    if (s.frame i).pc = .await17 then s.commit i (onBodyRead (s.view i)) else s

/-- A sequence of occurrences, in order. -/
def runTicks (net : FlowId → FetchOutcome) (s : System) (ticks : List Tick) : System :=
  ticks.foldl (tick net) s

/-- A page on which the listener has been called twice and has run neither
time yet. -/
def System.start (page : Page) : System :=
  { page := page, log := [], navigated := false, first := Frame.fresh, second := Frame.fresh,
    ended := [] }

/-- The activation whose request was the last to settle. -/
def lastSettled : List Tick → Option FlowId
  | [] => none
  | .fetchSettled i :: rest =>
    match lastSettled rest with
    | some j => some j
    | none => some i
  | _ :: rest => lastSettled rest

/-- The text an activation writes when it finishes, if it writes one. -/
def writtenText (net : FetchOutcome) : Option String :=
  match net with
  | .error _ => none
  | .ok r =>
    match r.rendering with
    | .error _ => none
    | .ok text => some text

/-- The content of the render area after the activations in `ended` have
finished in that order, starting from `content`: each one that writes a text
replaces what is there. -/
def overwritten (net : FlowId → FetchOutcome) (content : String) : List FlowId → String
  | [] => content
  | i :: rest =>
    match writtenText (net i) with
    | some text => overwritten net text rest
    | none => overwritten net content rest

/-- The text written by the last of the activations in `ended` (listed in the
order they finished) that wrote one; `none` when none of them wrote. -/
def lastWritten (net : FlowId → FetchOutcome) : List FlowId → Option String
  | [] => none
  | i :: rest =>
    match lastWritten net rest with
    | some text => some text
    | none => writtenText (net i)

/-- Where an activation can stand between two occurrences, and what it then
holds: at its start, waiting for its request, waiting for the body of the
response its request resolved with (of success status), or finished. -/
def FrameOk (net : FetchOutcome) (f : Frame) : Prop :=
  f.pc = .line5 ∨ f.pc = .await10
    ∨ (f.pc = .await17 ∧ ∃ r, net = .ok r ∧ f.locals.response = some r ∧ r.ok = true)
    ∨ f.pc.finished = true

/-- What holds of a page with two activations after any sequence of
occurrences, `content` being the text of the render area at the start. -/
def Inv (net : FlowId → FetchOutcome) (content : String) (s : System) : Prop :=
  s.page.textContent = overwritten net content s.ended
    ∧ FrameOk (net .first) s.first ∧ FrameOk (net .second) s.second

/-- Two answers of success status, "a" to the first submission and "b" to the
second. -/
def twoAnswers : FlowId → FetchOutcome
  | .first => .ok ⟨200, "OK", .ok (.obj (.cons "server_response" (.str "a") .nil))⟩
  | .second => .ok ⟨200, "OK", .ok (.obj (.cons "server_response" (.str "b") .nil))⟩

/-- The second submission comes while the first request is under way; the
first response arrives before the second one, but its body takes longer to
read. -/
def slowFirstBody : List Tick :=
  [.submitted .first, .submitted .second, .fetchSettled .first, .fetchSettled .second,
    .bodyRead .second, .bodyRead .first]

/-- An answer "a" of success status to the first submission, and to the second
a response of success status whose body is not valid JSON. -/
def answerAndGarbage : FlowId → FetchOutcome
  | .first => .ok ⟨200, "OK", .ok (.obj (.cons "server_response" (.str "a") .nil))⟩
  | .second => .ok ⟨200, "OK", .error ⟨"SyntaxError"⟩⟩

/-- The second submission comes while the first request is under way; the
first response arrives and is read, then the second. -/
def inOrder : List Tick :=
  [.submitted .first, .submitted .second, .fetchSettled .first, .bodyRead .first,
    .fetchSettled .second, .bodyRead .second]

/-- The first submission is answered 503, the second one 200 with "b". -/
def refusalAndAnswer : FlowId → FetchOutcome
  | .first => .ok ⟨503, "Service Unavailable", .error ⟨"SyntaxError"⟩⟩
  | .second => .ok ⟨200, "OK", .ok (.obj (.cons "server_response" (.str "b") .nil))⟩

/-- A page showing an earlier answer, the user having typed "hello". -/
def samplePage : Page :=
  { formEntries := [("user_input", .text "hello")], submitClasses := ["button"],
    textContent := "earlier answer" }

/-! ## Facts about the listener -/

theorem loading_in_added (classes : List String) :
    "loading" ∈ classListAdd "loading" classes := by
  unfold classListAdd
  split <;> simp_all

theorem loading_not_in_removed (classes : List String) :
    "loading" ∉ classListRemove "loading" classes := by
  simp [classListRemove]

theorem waitingPage_loading (page : Page) : (waitingPage page).loading = true := by
  simp [waitingPage, Page.loading, loading_in_added]

theorem settledPage_loading (page : Page) : (settledPage page).loading = false := by
  simp [settledPage, Page.loading, loading_not_in_removed]

theorem submit_initial (page : Page) :
    submit (initial page) =
      { pc := .await10
        locals := ⟨some page.formEntries, some (FormData.get page.formEntries "user_input"),
          none, none⟩
        defaultPrevented := true
        page := waitingPage page
        log := submitEffects page
        navigated := false } := rfl

theorem run_rejected (page : Page) (e : JsError) :
    run (.error e) page =
      { pc := .threw e
        locals := ⟨some page.formEntries, some (FormData.get page.formEntries "user_input"),
          none, none⟩
        defaultPrevented := true
        page := waitingPage page
        log := submitEffects page
        navigated := false } := by
  simp [run, onBodyRead, onFetchSettled, submit_initial, resumeFetch, resumeJson, runSync, exec]

theorem run_resolved (page : Page) (r : Response) :
    (run (.ok r) page).pc
        = (match r.rendering with
          | .ok _ => .returned
          | .error e => .threw e) ∧
      (run (.ok r) page).page
        = (match r.rendering with
          | .ok text => { settledPage page with textContent := text }
          | .error _ => settledPage page) ∧
      (run (.ok r) page).log
        = submitEffects page ++ [.classListRemove "loading"]
            ++ (if r.ok then [.responseJson] else [])
            ++ (match r.rendering with
              | .ok text => [.setTextContent text]
              | .error _ => []) ∧
      (run (.ok r) page).navigated = false ∧
      (run (.ok r) page).defaultPrevented = true := by
  cases h : r.ok
  · simp [run, onBodyRead, onFetchSettled, submit_initial, resumeFetch, resumeJson, runSync,
      exec, h, settledPage, waitingPage, submitEffects, Response.rendering]
  · cases hj : r.json with
    | error e =>
      simp [run, onBodyRead, onFetchSettled, submit_initial, resumeFetch, resumeJson, runSync,
        exec, h, hj, settledPage, waitingPage, submitEffects, Response.rendering]
    | ok data =>
      cases hs : data.serverResponse with
      | error e =>
        simp [run, onBodyRead, onFetchSettled, submit_initial, resumeFetch, resumeJson, runSync,
          exec, h, hj, hs, settledPage, waitingPage, submitEffects, Response.rendering]
      | ok v =>
        cases hd : domString (orFallback v fallbackMessage) with
        | error e =>
          simp [run, onBodyRead, onFetchSettled, submit_initial, resumeFetch, resumeJson,
            runSync, exec, h, hj, hs, hd, settledPage, waitingPage, submitEffects,
            Response.rendering]
        | ok text =>
          simp [run, onBodyRead, onFetchSettled, submit_initial, resumeFetch, resumeJson,
            runSync, exec, h, hj, hs, hd, settledPage, waitingPage, submitEffects,
            Response.rendering]

theorem rendering_of_string (r : Response) (members : JsonMembers) (S : String)
    (hok : r.ok = true) (hbody : r.json = .ok (.obj members))
    (hfield : members.get? "server_response" = some (.str S)) (hS : S ≠ "") :
    r.rendering = .ok S := by
  simp [Response.rendering, hok, hbody, Json.serverResponse, hfield, orFallback, Json.truthy, hS,
    domString, Json.isNull, Json.toStringJs]

theorem rendering_of_missing (r : Response) (data : Json) (v : Option Json)
    (hok : r.ok = true) (hbody : r.json = .ok data) (hget : data.serverResponse = .ok v)
    (hfield : v = none ∨ v = some .null ∨ v = some (.str "")) :
    r.rendering = .ok "Please enter a valid prompt" := by
  rcases hfield with h | h | h <;>
    simp [Response.rendering, hok, hbody, hget, h, orFallback, Json.truthy,
      domString, Json.isNull, Json.toStringJs, fallbackMessage]

theorem serverResponse_defined_iff (data : Json) :
    (∃ v, data.serverResponse = .ok v) ↔ data ≠ .null := by
  cases data <;> simp [Json.serverResponse]

theorem rendering_of_failure (r : Response) (h : r.ok = false) :
    r.rendering = .ok r.statusText := by
  simp [Response.rendering, h]

theorem rendering_of_bad_body (r : Response) (e : JsError) (h : r.ok = true)
    (hj : r.json = .error e) : r.rendering = .error e := by
  simp [Response.rendering, h, hj]

theorem submit_at_line5 (c : Config) (h : c.pc = .line5) :
    (submit c).pc = .await10 ∧ (submit c).page.textContent = c.page.textContent := by
  simp [submit, defaultAction, runSync, exec, h]

theorem fetch_rejected_at_await10 (c : Config) (e : JsError) (h : c.pc = .await10) :
    (onFetchSettled (.error e) c).pc = .threw e
      ∧ (onFetchSettled (.error e) c).page.textContent = c.page.textContent := by
  simp [onFetchSettled, resumeFetch, runSync, exec, h]

theorem fetch_failure_at_await10 (c : Config) (r : Response) (h : c.pc = .await10)
    (hok : r.ok = false) :
    (onFetchSettled (.ok r) c).pc = .returned
      ∧ (onFetchSettled (.ok r) c).page.textContent = r.statusText := by
  simp [onFetchSettled, resumeFetch, runSync, exec, h, hok]

theorem fetch_success_at_await10 (c : Config) (r : Response) (h : c.pc = .await10)
    (hok : r.ok = true) :
    (onFetchSettled (.ok r) c).pc = .await17
      ∧ (onFetchSettled (.ok r) c).locals.response = some r
      ∧ (onFetchSettled (.ok r) c).page.textContent = c.page.textContent := by
  simp [onFetchSettled, resumeFetch, runSync, exec, h, hok]

theorem body_read_at_await17 (c : Config) (r : Response) (h : c.pc = .await17)
    (hr : c.locals.response = some r) (hok : r.ok = true) :
    (onBodyRead c).pc.finished = true
      ∧ (onBodyRead c).page.textContent
          = (match r.rendering with
            | .ok text => text
            | .error _ => c.page.textContent) := by
  cases hj : r.json with
  | error e => simp [onBodyRead, resumeJson, runSync, exec, h, hr, hj, hok, Response.rendering, Pc.finished]
  | ok data =>
    cases hs : data.serverResponse with
    | error e => simp [onBodyRead, resumeJson, runSync, exec, h, hr, hj, hs, hok, Response.rendering, Pc.finished]
    | ok v =>
      cases hd : domString (orFallback v fallbackMessage) with
      | error e => simp [onBodyRead, resumeJson, runSync, exec, h, hr, hj, hs, hd, hok, Response.rendering, Pc.finished]
      | ok text => simp [onBodyRead, resumeJson, runSync, exec, h, hr, hj, hs, hd, hok, Response.rendering, Pc.finished]


theorem overwritten_append (net : FlowId → FetchOutcome) (content : String)
    (earlier : List FlowId) (i : FlowId) :
    overwritten net content (earlier ++ [i])
      = (match writtenText (net i) with
        | some text => text
        | none => overwritten net content earlier) := by
  induction earlier generalizing content with
  | nil => simp only [List.nil_append, overwritten]
  | cons j rest ih =>
    simp only [List.cons_append, overwritten]
    cases writtenText (net j) <;> exact ih _

theorem overwritten_eq_lastWritten (net : FlowId → FetchOutcome) (content : String)
    (ended : List FlowId) :
    overwritten net content ended = (lastWritten net ended).getD content := by
  induction ended generalizing content with
  | nil => rfl
  | cons i rest ih =>
    simp only [overwritten, lastWritten]
    cases hw : writtenText (net i) with
    | none =>
      simp only [ih]
      cases lastWritten net rest <;> rfl
    | some text =>
      simp only [ih]
      cases lastWritten net rest <;> rfl

theorem commit_inv (net : FlowId → FetchOutcome) (content : String) (s : System) (i : FlowId)
    (c : Config) (hinv : Inv net content s) (hframe : FrameOk (net i) c.toFrame)
    (htext : c.page.textContent
      = if c.pc.finished then
          (match writtenText (net i) with
          | some text => text
          | none => s.page.textContent)
        else s.page.textContent) :
    Inv net content (s.commit i c) := by
  obtain ⟨h1, h2, h3⟩ := hinv
  cases i with
  | first =>
    refine ⟨?_, hframe, h3⟩
    simp only [System.commit]
    rw [htext]
    cases hf : c.pc.finished
    · simpa using h1
    · simp only [if_true, overwritten_append]
      cases writtenText (net .first) <;> simp [h1]
  | second =>
    refine ⟨?_, h2, hframe⟩
    simp only [System.commit]
    rw [htext]
    cases hf : c.pc.finished
    · simpa using h1
    · simp only [if_true, overwritten_append]
      cases writtenText (net .second) <;> simp [h1]

theorem frameOk_frame (net : FlowId → FetchOutcome) (content : String) (s : System)
    (hinv : Inv net content s) (i : FlowId) : FrameOk (net i) (s.frame i) := by
  cases i
  · exact hinv.2.1
  · exact hinv.2.2

theorem tick_inv (net : FlowId → FetchOutcome) (content : String) (s : System) (t : Tick)
    (hinv : Inv net content s) : Inv net content (tick net s t) := by
  cases t with
  | submitted i =>
    simp only [tick]
    split
    · rename_i h
      have hv : (s.view i).pc = .line5 := h
      obtain ⟨hpc, htc⟩ := submit_at_line5 (s.view i) hv
      apply commit_inv net content s i _ hinv
      · exact Or.inr (Or.inl hpc)
      · rw [hpc, htc]; rfl
    · exact hinv
  | fetchSettled i =>
    simp only [tick]
    split
    · rename_i h
      have hv : (s.view i).pc = .await10 := h
      cases hn : net i with
      | error e =>
        obtain ⟨hpc, htc⟩ := fetch_rejected_at_await10 (s.view i) e hv
        apply commit_inv net content s i _ hinv
        · exact Or.inr (Or.inr (Or.inr (by rw [hpc]; rfl)))
        · rw [hpc, htc, hn]; rfl
      | ok r =>
        cases hok : r.ok
        · obtain ⟨hpc, htc⟩ := fetch_failure_at_await10 (s.view i) r hv hok
          apply commit_inv net content s i _ hinv
          · exact Or.inr (Or.inr (Or.inr (by rw [hpc]; rfl)))
          · rw [hpc, htc, hn]
            simp [writtenText, Response.rendering, hok, Pc.finished]
        · obtain ⟨hpc, hresp, htc⟩ := fetch_success_at_await10 (s.view i) r hv hok
          apply commit_inv net content s i _ hinv
          · exact Or.inr (Or.inr (Or.inl ⟨hpc, r, hn, hresp, hok⟩))
          · rw [hpc, htc]; rfl
    · exact hinv
  | bodyRead i =>
    simp only [tick]
    split
    · rename_i h
      have hv : (s.view i).pc = .await17 := h
      have hf := frameOk_frame net content s hinv i
      rcases hf with h5 | h10 | ⟨-, r, hn, hresp, hok⟩ | hfin
      · rw [h] at h5; cases h5
      · rw [h] at h10; cases h10
      · obtain ⟨hpc, htc⟩ := body_read_at_await17 (s.view i) r hv hresp hok
        apply commit_inv net content s i _ hinv
        · exact Or.inr (Or.inr (Or.inr hpc))
        · rw [hpc, htc, hn]
          simp only [if_true, writtenText]
          cases r.rendering <;> rfl
      · rw [h] at hfin; cases hfin
    · exact hinv

theorem runTicks_inv (net : FlowId → FetchOutcome) (content : String) (ticks : List Tick)
    (s : System) (hinv : Inv net content s) : Inv net content (runTicks net s ticks) := by
  induction ticks generalizing s with
  | nil => exact hinv
  | cons t rest ih => exact ih (tick net s t) (tick_inv net content s t hinv)

theorem start_inv (net : FlowId → FetchOutcome) (page : Page) :
    Inv net page.textContent (System.start page) :=
  ⟨rfl, Or.inl rfl, Or.inl rfl⟩


/-! ## The claims -/

/-- C1: a response of success status whose JSON body is an object holding a
non-empty string `S` under `server_response` leaves exactly `S` as the text of
the render area, and the listener returns normally. -/
theorem shows_server_response (page : Page) (r : Response) (members : JsonMembers) (S : String)
    (hok : r.ok = true) (hbody : r.json = .ok (.obj members))
    (hfield : members.get? "server_response" = some (.str S)) (hS : S ≠ "") :
    (run (.ok r) page).page.textContent = S ∧ (run (.ok r) page).pc = .returned := by
  have hr := rendering_of_string r members S hok hbody hfield hS
  obtain ⟨hpc, hpage, -⟩ := run_resolved page r
  rw [hr] at hpc hpage
  simp [hpc, hpage]

/-- Scenario A: the user enters "hello", the server answers 200 with the body
`{"server_response":"world"}`, and the render area shows "world". -/
theorem shows_server_response_scenario :
    (run (.ok ⟨200, "OK", .ok (.obj (.cons "server_response" (.str "world") .nil))⟩)
        ⟨[("user_input", .text "hello")], ["button"], ""⟩).page.textContent = "world"
      ∧ (run (.ok ⟨200, "OK", .ok (.obj (.cons "server_response" (.str "world") .nil))⟩)
        ⟨[("user_input", .text "hello")], ["button"], ""⟩).pc = .returned :=
  shows_server_response ⟨[("user_input", .text "hello")], ["button"], ""⟩
    ⟨200, "OK", .ok (.obj (.cons "server_response" (.str "world") .nil))⟩
    (.cons "server_response" (.str "world") .nil) "world" (by decide) rfl rfl (by decide)

/-- C2 as stated fails: the body `null` is valid JSON in which
`server_response` is absent, and on a response of success status with that
body the member access of line 18 throws before `||` is evaluated; the
listener ends by a `TypeError` and the render area keeps its earlier text
instead of showing the fallback message. -/
theorem null_body_shows_no_fallback :
    Response.ok ⟨200, "OK", .ok .null⟩ = true
      ∧ (run (.ok ⟨200, "OK", .ok .null⟩)
          ⟨[("user_input", .text "")], ["button"], "earlier answer"⟩).pc
        = .threw ⟨"TypeError"⟩
      ∧ (run (.ok ⟨200, "OK", .ok .null⟩)
          ⟨[("user_input", .text "")], ["button"], "earlier answer"⟩).page.textContent
        = "earlier answer"
      ∧ (run (.ok ⟨200, "OK", .ok .null⟩)
          ⟨[("user_input", .text "")], ["button"], "earlier answer"⟩).page.textContent
        ≠ "Please enter a valid prompt" := by
  decide

/-- C2, amended: a response of success status whose JSON body is any parsed
value other than `null` (the bodies on which the member can be read at all,
see `serverResponse_defined_iff`), and in which `server_response` reads as
absent (`undefined`), `null` or the empty string, leaves the literal "Please
enter a valid prompt" as the text of the render area, and the listener returns
normally. -/
theorem shows_fallback (page : Page) (r : Response) (data : Json)
    (hok : r.ok = true) (hbody : r.json = .ok data)
    (hfield : data.serverResponse = .ok none
      ∨ data.serverResponse = .ok (some .null)
      ∨ data.serverResponse = .ok (some (.str ""))) :
    (run (.ok r) page).page.textContent = "Please enter a valid prompt"
      ∧ (run (.ok r) page).pc = .returned := by
  have hr : r.rendering = .ok "Please enter a valid prompt" := by
    rcases hfield with h | h | h
    · exact rendering_of_missing r data none hok hbody h (Or.inl rfl)
    · exact rendering_of_missing r data (some .null) hok hbody h (Or.inr (Or.inl rfl))
    · exact rendering_of_missing r data (some (.str "")) hok hbody h (Or.inr (Or.inr rfl))
  obtain ⟨hpc, hpage, -⟩ := run_resolved page r
  rw [hr] at hpc hpage
  simp [hpc, hpage]

/-- Scenario B: the user submits with `user_input` empty, the server answers
200 with the body `{}`, and the render area shows the fallback message. -/
theorem shows_fallback_scenario :
    (run (.ok ⟨200, "OK", .ok (.obj .nil)⟩)
        ⟨[("user_input", .text "")], ["button"], "earlier answer"⟩).page.textContent
        = "Please enter a valid prompt"
      ∧ (run (.ok ⟨200, "OK", .ok (.obj .nil)⟩)
        ⟨[("user_input", .text "")], ["button"], "earlier answer"⟩).pc = .returned :=
  shows_fallback ⟨[("user_input", .text "")], ["button"], "earlier answer"⟩
    ⟨200, "OK", .ok (.obj .nil)⟩ (.obj .nil) (by decide) rfl (Or.inl rfl)

/-- C3: a response whose status is not a success leaves its reason phrase as
the text of the render area; `response.json()` is never called on that path,
and page, effects and end of the listener are the same whatever the body of the
response is, a body that is not valid JSON included. -/
theorem shows_status_text (page : Page) (r : Response) (hok : r.ok = false) :
    (run (.ok r) page).page.textContent = r.statusText
      ∧ (run (.ok r) page).pc = .returned
      ∧ Effect.responseJson ∉ (run (.ok r) page).log
      ∧ ∀ body : Except JsError Json,
          (run (.ok { r with json := body }) page).page = (run (.ok r) page).page
            ∧ (run (.ok { r with json := body }) page).log = (run (.ok r) page).log
            ∧ (run (.ok { r with json := body }) page).pc = (run (.ok r) page).pc := by
  have hr := rendering_of_failure r hok
  obtain ⟨hpc, hpage, hlog, -⟩ := run_resolved page r
  rw [hr] at hpc hpage hlog
  refine ⟨by simp [hpage], hpc, by simp [hlog, hok, submitEffects], ?_⟩
  intro body
  have hok2 : ({ r with json := body } : Response).ok = false := hok
  have hr2 := rendering_of_failure { r with json := body } hok2
  obtain ⟨hpc2, hpage2, hlog2, -⟩ := run_resolved page { r with json := body }
  rw [hr2] at hpc2 hpage2 hlog2
  simp [hpc, hpage, hlog, hpc2, hpage2, hlog2, hok, hok2]

/-- Scenario C: the server answers 500 with the reason phrase "Internal Server
Error" (and a body that is not JSON), and the render area shows that phrase. -/
theorem shows_status_text_scenario :
    (run (.ok ⟨500, "Internal Server Error", .error ⟨"SyntaxError"⟩⟩)
        ⟨[("user_input", .text "hello")], ["button"], ""⟩).page.textContent
        = "Internal Server Error" :=
  (shows_status_text ⟨[("user_input", .text "hello")], ["button"], ""⟩
    ⟨500, "Internal Server Error", .error ⟨"SyntaxError"⟩⟩ (by decide)).1

/-- C4: in a single submission that starts without the marker and receives a
response, the configurations in which the submit control carries `loading` are
exactly those from after line 6 up to line 14, the statement the listener
resumes at when the response has arrived: the marker is there while the
request is issued (line 10) and all the time the listener waits for it, and in
no configuration after line 14.  The listener does pass through these
configurations whatever the status, and in the order of effects the marker is
added before the call of `fetch` and removed right after it, before
`response.json()` is called and before the render area is written. -/
theorem loading_marker_timeline (page : Page) (r : Response) (h0 : page.loading = false) :
    (∀ c ∈ trace (.ok r) page,
        c.page.loading = true ↔ c.pc ∈ [Pc.line7, .line8, .line10, .await10, .line14])
      ∧ ((trace (.ok r) page).take 8).map (fun c => c.pc)
          = [.line5, .line6, .line7, .line8, .line10, .await10, .line14, .line16]
      ∧ (trace (.ok r) page).getLast? = some (run (.ok r) page)
      ∧ (run (.ok r) page).log
          = [.preventDefault, .classListAdd "loading", .newFormData, .formDataGet "user_input",
              .fetch (resultsRequest page.formEntries), .classListRemove "loading"]
            ++ (if r.ok then [.responseJson] else [])
            ++ (match r.rendering with
              | .ok text => [.setTextContent text]
              | .error _ => []) := by
  have h1 := loading_in_added page.submitClasses
  have h2 := loading_not_in_removed (classListAdd "loading" page.submitClasses)
  simp only [Page.loading, decide_eq_false_iff_not] at h0
  refine ⟨?_, ?_, ?_, ?_⟩
  · cases h : r.ok
    · simp [trace, traceFrom, step, exec, resumeFetch, resumeJson, initial, Frame.fresh, h, h0,
        h1, h2, Page.loading]
    · cases hj : r.json with
      | error e =>
        simp [trace, traceFrom, step, exec, resumeFetch, resumeJson, initial, Frame.fresh, h,
          hj, h0, h1, h2, Page.loading]
      | ok data =>
        cases hs : data.serverResponse with
        | error e =>
          simp [trace, traceFrom, step, exec, resumeFetch, resumeJson, initial, Frame.fresh, h,
            hj, hs, h0, h1, h2, Page.loading]
        | ok v =>
          cases hd : domString (orFallback v fallbackMessage) with
          | error e =>
            simp [trace, traceFrom, step, exec, resumeFetch, resumeJson, initial, Frame.fresh,
              h, hj, hs, hd, h0, h1, h2, Page.loading]
          | ok text =>
            simp [trace, traceFrom, step, exec, resumeFetch, resumeJson, initial, Frame.fresh,
              h, hj, hs, hd, h0, h1, h2, Page.loading]
  · cases h : r.ok <;>
      simp [trace, traceFrom, step, exec, resumeFetch, resumeJson, initial, Frame.fresh, h]
  · cases h : r.ok
    · simp [trace, traceFrom, step, exec, resumeFetch, resumeJson, initial, Frame.fresh, h,
        run, onBodyRead, onFetchSettled, submit, defaultAction, runSync]
    · cases hj : r.json with
      | error e =>
        simp [trace, traceFrom, step, exec, resumeFetch, resumeJson, initial, Frame.fresh, h,
          hj, run, onBodyRead, onFetchSettled, submit, defaultAction, runSync]
      | ok data =>
        cases hs : data.serverResponse with
        | error e =>
          simp [trace, traceFrom, step, exec, resumeFetch, resumeJson, initial, Frame.fresh, h,
            hj, hs, run, onBodyRead, onFetchSettled, submit, defaultAction, runSync]
        | ok v =>
          cases hd : domString (orFallback v fallbackMessage) with
          | error e =>
            simp [trace, traceFrom, step, exec, resumeFetch, resumeJson, initial, Frame.fresh,
              h, hj, hs, hd, run, onBodyRead, onFetchSettled, submit, defaultAction, runSync]
          | ok text =>
            simp [trace, traceFrom, step, exec, resumeFetch, resumeJson, initial, Frame.fresh,
              h, hj, hs, hd, run, onBodyRead, onFetchSettled, submit, defaultAction, runSync]
  · obtain ⟨-, -, hlog, -⟩ := run_resolved page r
    simp [hlog, submitEffects]

/-- A submission on a page whose submit control has one class and no marker,
answered 200 with `{"server_response":"world"}`: the effects, in order. -/
theorem loading_marker_timeline_scenario :
    (run (.ok ⟨200, "OK", .ok (.obj (.cons "server_response" (.str "world") .nil))⟩)
        ⟨[("user_input", .text "hello")], ["button"], ""⟩).log
      = [.preventDefault, .classListAdd "loading", .newFormData, .formDataGet "user_input",
          .fetch ⟨"/results", "POST", [], [("user_input", .text "hello")]⟩,
          .classListRemove "loading", .responseJson, .setTextContent "world"] :=
  (loading_marker_timeline ⟨[("user_input", .text "hello")], ["button"], ""⟩
    ⟨200, "OK", .ok (.obj (.cons "server_response" (.str "world") .nil))⟩ (by decide)).2.2.2

/-- C5: on every path (transport failure, non-success status, unreadable body,
rendered answer) `preventDefault` is the first effect of the listener and the
only effect of its first statement; the event is canceled in every
configuration after that statement, in particular when the listener first
suspends and the dispatch returns to the browser, so the default action of the
browser does not navigate; and the page has not been navigated away from when
the listener ends. -/
theorem default_navigation_suppressed (page : Page) (net : FetchOutcome) :
    (run net page).log.head? = some .preventDefault
      ∧ (exec (initial page)).log = [.preventDefault]
      ∧ (∀ c ∈ (trace net page).tail, c.defaultPrevented = true)
      ∧ (runSync (initial page)).pc = .await10
      ∧ (runSync (initial page)).defaultPrevented = true
      ∧ (submit (initial page)).navigated = false
      ∧ (run net page).navigated = false
      ∧ (run net page).pc.finished = true := by
  refine ⟨?_, rfl, ?_, rfl, rfl, rfl, ?_, ?_⟩
  · cases net with
    | error e =>
      rw [run_rejected]
      rfl
    | ok r =>
      obtain ⟨-, -, hlog, -⟩ := run_resolved page r
      rw [hlog]
      rfl
  · cases net with
    | error e =>
      simp [trace, traceFrom, step, exec, resumeFetch, resumeJson, initial, Frame.fresh]
    | ok r =>
      cases h : r.ok
      · simp [trace, traceFrom, step, exec, resumeFetch, resumeJson, initial, Frame.fresh, h]
      · cases hj : r.json with
        | error e =>
          simp [trace, traceFrom, step, exec, resumeFetch, resumeJson, initial, Frame.fresh, h,
            hj]
        | ok data =>
          cases hs : data.serverResponse with
          | error e =>
            simp [trace, traceFrom, step, exec, resumeFetch, resumeJson, initial, Frame.fresh,
              h, hj, hs]
          | ok v =>
            cases hd : domString (orFallback v fallbackMessage) with
            | error e =>
              simp [trace, traceFrom, step, exec, resumeFetch, resumeJson, initial,
                Frame.fresh, h, hj, hs, hd]
            | ok text =>
              simp [trace, traceFrom, step, exec, resumeFetch, resumeJson, initial,
                Frame.fresh, h, hj, hs, hd]
  · cases net with
    | error e =>
      rw [run_rejected]
    | ok r => exact (run_resolved page r).2.2.2.1
  · cases net with
    | error e =>
      rw [run_rejected]
      rfl
    | ok r =>
      obtain ⟨hpc, -⟩ := run_resolved page r
      rw [hpc]
      cases r.rendering <;> rfl

/-- C6: on every path the listener issues exactly one request: to the fixed
path `/results`, with method POST, with no header given, and with the entry
list of the form as it stood at submission for body; the listener leaves that
entry list as it found it. -/
theorem one_request_per_submission (page : Page) (net : FetchOutcome) :
    requests (run net page).log
        = [{ url := "/results", method := "POST", headers := [], body := page.formEntries }]
      ∧ requests (submit (initial page)).log
        = [{ url := "/results", method := "POST", headers := [], body := page.formEntries }]
      ∧ (run net page).page.formEntries = page.formEntries := by
  refine ⟨?_, ?_, ?_⟩
  · cases net with
    | error e =>
      rw [run_rejected]
      simp [submitEffects, requests, resultsRequest]
    | ok r =>
      obtain ⟨-, -, hlog, -⟩ := run_resolved page r
      rw [hlog]
      cases r.ok <;> cases r.rendering <;> simp [submitEffects, requests, resultsRequest]
  · rw [submit_initial]
    simp [submitEffects, requests, resultsRequest]
  · cases net with
    | error e =>
      rw [run_rejected]
      rfl
    | ok r =>
      obtain ⟨-, hpage, -⟩ := run_resolved page r
      rw [hpage]
      cases r.rendering <;> simp [settledPage]

/-- C7: when the request fails at the transport level the listener ends by
throwing the rejection reason, which nothing catches; it never writes the
render area, whose text is the one from before the submission, and the marker
is still on the submit control. -/
theorem transport_failure_unrecovered (page : Page) (e : JsError) :
    (run (.error e) page).pc = .threw e
      ∧ (run (.error e) page).page.textContent = page.textContent
      ∧ (run (.error e) page).page.loading = true
      ∧ (∀ eff ∈ (run (.error e) page).log, eff.writesText = false) := by
  rw [run_rejected]
  refine ⟨rfl, rfl, waitingPage_loading page, ?_⟩
  simp [submitEffects, Effect.writesText]

/-- C8: when a response of success status has a body that is not valid JSON the
listener ends by throwing the rejection reason of `response.json()`, which
nothing catches; it never writes the render area, neither fallback nor error
text, so the text is the one from before the submission; the marker has been
removed. -/
theorem malformed_body_unrecovered (page : Page) (r : Response) (e : JsError)
    (hok : r.ok = true) (hbody : r.json = .error e) :
    (run (.ok r) page).pc = .threw e
      ∧ (run (.ok r) page).page.textContent = page.textContent
      ∧ (run (.ok r) page).page.loading = false
      ∧ (∀ eff ∈ (run (.ok r) page).log, eff.writesText = false) := by
  have hr := rendering_of_bad_body r e hok hbody
  obtain ⟨hpc, hpage, hlog, -⟩ := run_resolved page r
  rw [hr] at hpc hpage hlog
  refine ⟨hpc, by simp [hpage, settledPage], ?_, ?_⟩
  · rw [hpage]
    exact settledPage_loading page
  · simp [hlog, hok, submitEffects, Effect.writesText]

/-- An answer 200 whose body is not JSON, on a page showing an earlier answer:
the earlier answer stays. -/
theorem malformed_body_unrecovered_scenario :
    (run (.ok ⟨200, "OK", .error ⟨"SyntaxError"⟩⟩)
        ⟨[("user_input", .text "hello")], ["button"], "earlier answer"⟩).pc
        = .threw ⟨"SyntaxError"⟩
      ∧ (run (.ok ⟨200, "OK", .error ⟨"SyntaxError"⟩⟩)
        ⟨[("user_input", .text "hello")], ["button"], "earlier answer"⟩).page.textContent
        = "earlier answer" :=
  ⟨(malformed_body_unrecovered ⟨[("user_input", .text "hello")], ["button"], "earlier answer"⟩
      ⟨200, "OK", .error ⟨"SyntaxError"⟩⟩ ⟨"SyntaxError"⟩ (by decide) rfl).1,
    (malformed_body_unrecovered ⟨[("user_input", .text "hello")], ["button"], "earlier answer"⟩
      ⟨200, "OK", .error ⟨"SyntaxError"⟩⟩ ⟨"SyntaxError"⟩ (by decide) rfl).2.1⟩

/-- C10 as stated fails: the same response, of success status with a body that
is not valid JSON, on two pages that differ only in the earlier text of the
render area, leaves two different texts. -/
theorem prior_content_survives_failure :
    (run (.ok ⟨200, "OK", .error ⟨"SyntaxError"⟩⟩) ⟨[], [], "one"⟩).page.textContent
      ≠ (run (.ok ⟨200, "OK", .error ⟨"SyntaxError"⟩⟩) ⟨[], [], "two"⟩).page.textContent := by
  decide

/-- C10, amended: for two runs on any two pages that receive the same
response, the marker is absent at the end of both and both end the same way;
the final text of the render area is the text the response renders to, the
same in both runs, when the response renders to one, and otherwise it is the
earlier text of each page. -/
theorem outcome_from_response (r : Response) (p q : Page) :
    (run (.ok r) p).page.loading = false
      ∧ (run (.ok r) q).page.loading = false
      ∧ (run (.ok r) p).pc = (run (.ok r) q).pc
      ∧ (run (.ok r) p).page.textContent
          = (match r.rendering with
            | .ok text => text
            | .error _ => p.textContent)
      ∧ (run (.ok r) q).page.textContent
          = (match r.rendering with
            | .ok text => text
            | .error _ => q.textContent) := by
  obtain ⟨hpc, hpage, -⟩ := run_resolved p r
  obtain ⟨hpc2, hpage2, -⟩ := run_resolved q r
  have hp := settledPage_loading p
  have hq := settledPage_loading q
  rw [hpc, hpc2, hpage, hpage2]
  cases r.rendering <;> simp_all [settledPage, Page.loading]

/-- C9 as stated fails, in two ways.  In both runs two submissions overlap (the
first request is still under way when the second is issued) and both
responses arrive, the one to the second submission last.

In the first run that response alone would put "b" in the render area, yet
the area ends up showing "a": the body of the first response was read last,
and with it the first activation was the last to write.

In the second run the second activation is also the last to finish, but the
body of its response is not valid JSON, so it ends by an exception and writes
nothing: the area keeps "a", the text of the first response, and not what the
second response alone leaves there. -/
theorem last_response_does_not_win :
    ((runTicks twoAnswers (System.start samplePage) (slowFirstBody.take 2)).first.pc = .await10
      ∧ lastSettled slowFirstBody = some .second
      ∧ (run (twoAnswers .second) samplePage).page.textContent = "b"
      ∧ (runTicks twoAnswers (System.start samplePage) slowFirstBody).ended = [.second, .first]
      ∧ (runTicks twoAnswers (System.start samplePage) slowFirstBody).page.textContent = "a"
      ∧ (runTicks twoAnswers (System.start samplePage) slowFirstBody).page.textContent ≠ "b")
    ∧ ((runTicks answerAndGarbage (System.start samplePage) (inOrder.take 2)).first.pc = .await10
      ∧ lastSettled inOrder = some .second
      ∧ (run (answerAndGarbage .second) samplePage).page.textContent = "earlier answer"
      ∧ (runTicks answerAndGarbage (System.start samplePage) inOrder).ended = [.first, .second]
      ∧ (runTicks answerAndGarbage (System.start samplePage) inOrder).second.pc
          = .threw ⟨"SyntaxError"⟩
      ∧ (runTicks answerAndGarbage (System.start samplePage) inOrder).page.textContent = "a"
      ∧ (runTicks answerAndGarbage (System.start samplePage) inOrder).page.textContent
          ≠ "earlier answer") := by
  decide

/-- C9, amended: a second submission while the first request is under way
starts a second activation (both wait for their own request, two requests
have been issued, nothing cancels or blocks either).  Whatever happens
afterwards and in whatever order, the render area holds the text written by
the last activation to finish with a write, whichever submission it belongs
to and whichever response arrived last; an activation that ended by an
exception has written nothing, and when no activation has written the area
holds the text from before the submissions. -/
theorem last_to_finish_wins (net : FlowId → FetchOutcome) (page : Page) (rest : List Tick) :
    (runTicks net (System.start page) [.submitted .first, .submitted .second]).first.pc
        = .await10
      ∧ (runTicks net (System.start page) [.submitted .first, .submitted .second]).second.pc
        = .await10
      ∧ requests (runTicks net (System.start page) [.submitted .first, .submitted .second]).log
        = [resultsRequest page.formEntries, resultsRequest page.formEntries]
      ∧ (runTicks net (System.start page)
          (.submitted .first :: .submitted .second :: rest)).page.textContent
        = (lastWritten net
            (runTicks net (System.start page)
              (.submitted .first :: .submitted .second :: rest)).ended).getD
            page.textContent := by
  have hinv := runTicks_inv net page.textContent
    (.submitted .first :: .submitted .second :: rest) (System.start page) (start_inv net page)
  refine ⟨?_, ?_, ?_, ?_⟩
  · simp [runTicks, tick, System.start, System.frame, System.view, System.commit, Frame.fresh,
      submit, defaultAction, runSync, exec, Pc.finished]
  · simp [runTicks, tick, System.start, System.frame, System.view, System.commit, Frame.fresh,
      submit, defaultAction, runSync, exec, Pc.finished]
  · simp [runTicks, tick, System.start, System.frame, System.view, System.commit, Frame.fresh,
      submit, defaultAction, runSync, exec, Pc.finished, requests]
  · rw [hinv.1, overwritten_eq_lastWritten]

/-- The amended statement at three runs.  Out of order: both answers arrive,
the body of the first is read last, and "a" stays.  A failure last: the second
response has a body that is not valid JSON and finishes last, and "a" stays.
In order: the first submission is refused with 503, then the second is
answered "b", and "b" stays. -/
theorem last_to_finish_wins_scenario :
    (runTicks twoAnswers (System.start samplePage) slowFirstBody).page.textContent
        = "a"
      ∧ (runTicks answerAndGarbage (System.start samplePage) inOrder).page.textContent
        = "a"
      ∧ (runTicks refusalAndAnswer (System.start samplePage)
          [.submitted .first, .submitted .second, .fetchSettled .first, .fetchSettled .second,
            .bodyRead .second]).page.textContent
        = "b" :=
  ⟨(last_to_finish_wins twoAnswers samplePage
      [.fetchSettled .first, .fetchSettled .second, .bodyRead .second, .bodyRead .first]).2.2.2,
    (last_to_finish_wins answerAndGarbage samplePage
      [.fetchSettled .first, .bodyRead .first, .fetchSettled .second, .bodyRead .second]).2.2.2,
    (last_to_finish_wins refusalAndAnswer samplePage
      [.fetchSettled .first, .fetchSettled .second, .bodyRead .second]).2.2.2⟩

end CgolForm
